import Mathlib

/-!
Shallow embedding of the clip-collection editor in
src/src/CustomRemixMaker.jsx (the AdvancedRemixMaker component, the
variant with per-clip trim and speed editing).

The component state hooks (uploadedFiles, orderedClips, remixUrl,
remixing, recording, backgroundMusic) become one record. Each event
handler becomes a function from the state (plus the outcome of the
external network call, which is outside this repository) to the new
state together with its observable effects: the network request it
issued, if any, and the notification messages it surfaced. Seconds and
speed factors are modelled as rationals.
-/

namespace MusicCustom

/-- One audio clip, as built by customUpload in AdvancedRemixMaker:
name, url, trimStart, trimEnd, speed. -/
structure Clip where
  name : String
  url : String
  trimStart : ℚ
  trimEnd : ℚ
  speed : ℚ
  deriving Repr, DecidableEq

/-- The React state of AdvancedRemixMaker: the six useState hooks. -/
structure EditorState where
  uploadedFiles : List Clip
  orderedClips : List Clip
  remixUrl : Option String
  remixing : Bool
  recording : Bool
  backgroundMusic : Option String
  deriving Repr, DecidableEq

/-- JS truthiness of the backgroundMusic value: null and the empty
string are falsy, every other string is truthy. -/
def truthy : Option String → Bool
  | none => false
  | some s => !(s == "")

/-- One element of the clips array in the remix request body. -/
structure RemixClip where
  url : String
  trimStart : ℚ
  trimEnd : ℚ
  speed : ℚ
  deriving Repr, DecidableEq

/-- The JSON body POSTed to {base}/remix by handleRemix. -/
structure RemixPayload where
  clips : List RemixClip
  backgroundMusic : Option String
  deriving Repr, DecidableEq

/-- Outcome of the external upload endpoint: the url field of the JSON
response on success, or any caught error. -/
inductive UploadOutcome where
  | success (url : String)
  | failure
  deriving Repr, DecidableEq

/-- Outcome of the external remix endpoint: the object URL created for
the returned blob on success, or any caught error / non-2xx. -/
inductive RemixOutcome where
  | success (blobUrl : String)
  | failure
  deriving Repr, DecidableEq

/-- Result of an upload handler: the new state and the messages shown. -/
structure UploadStep where
  state : EditorState
  messages : List String
  deriving Repr, DecidableEq

/-- Result of handleRemix: the new state, the request body sent to the
remix endpoint (none when no network call was issued), and the
messages shown. -/
structure RemixStep where
  state : EditorState
  request : Option RemixPayload
  messages : List String
  deriving Repr, DecidableEq

/-- The new clip object built by customUpload on success:
trimStart 0, trimEnd 0 (set once the waveform loads), speed 1.0. -/
def mkClip (fileName fileUrl : String) : Clip :=
  { name := fileName, url := fileUrl, trimStart := 0, trimEnd := 0, speed := 1 }

/-- customUpload: POSTs the file to {base}/upload; on success appends
the new clip to both uploadedFiles and orderedClips; on a caught error
shows "Upload failed" and changes nothing. -/
def customUpload (s : EditorState) (fileName : String) (o : UploadOutcome) :
    UploadStep :=
  match o with
  | .success fileUrl =>
      let newClip := mkClip fileName fileUrl
      { state := { s with
          uploadedFiles := s.uploadedFiles ++ [newClip],
          orderedClips := s.orderedClips ++ [newClip] },
        messages := [] }
  | .failure =>
      { state := s, messages := ["Upload failed"] }

/-- safeTrimEnd in handleRemix: clip.trimEnd > 0 ? clip.trimEnd : 9999. -/
def safeTrimEnd (c : Clip) : ℚ :=
  if c.trimEnd > 0 then c.trimEnd else 9999

/-- The element of clipsPayload built from one clip in handleRemix. -/
def clipPayload (c : Clip) : RemixClip :=
  { url := c.url, trimStart := c.trimStart, trimEnd := safeTrimEnd c,
    speed := c.speed }

/-- The payload handleRemix sends: clips mapped from orderedClips, plus
backgroundMusic exactly when truthy (if (backgroundMusic) in JS). -/
def remixPayload (s : EditorState) : RemixPayload :=
  { clips := s.orderedClips.map clipPayload,
    backgroundMusic :=
      if truthy s.backgroundMusic then s.backgroundMusic else none }

/-- handleRemix in AdvancedRemixMaker. Empty collection: error message,
no request, early return. Otherwise it sets remixing true, clears
remixUrl, sends the payload; on success stores the blob URL, on a
caught error shows the failure message and leaves remixUrl at the null
it was just cleared to; finally sets remixing false. -/
def handleRemix (s : EditorState) (o : RemixOutcome) : RemixStep :=
  if s.orderedClips.length = 0 then
    { state := s, request := none,
      messages := ["Please add at least one audio clip."] }
  else
    match o with
    | .success blobUrl =>
        { state := { s with remixing := false, remixUrl := some blobUrl },
          request := some (remixPayload s),
          messages := ["Remix created successfully!"] }
    | .failure =>
        { state := { s with remixing := false, remixUrl := none },
          request := some (remixPayload s),
          messages := ["Failed to create remix."] }

/-- The partial update object passed to updateClip ({trimStart, trimEnd}
from the waveform region callback, or {speed} from the slider). -/
structure ClipPatch where
  trimStart : Option ℚ
  trimEnd : Option ℚ
  speed : Option ℚ
  deriving Repr, DecidableEq

/-- Object-spread merge { ...clip, ...newData }: each field named in the
patch overwrites the old value, the rest are copied. -/
def mergeClip (c : Clip) (p : ClipPatch) : Clip :=
  { c with
    trimStart := p.trimStart.getD c.trimStart,
    trimEnd := p.trimEnd.getD c.trimEnd,
    speed := p.speed.getD c.speed }

/-- updateClip: prev.map((clip, i) => i === index ? merged : clip).
The index is an integer so that out-of-range values, negative ones
included, are representable. -/
def updateClip (s : EditorState) (index : Int) (p : ClipPatch) : EditorState :=
  { s with orderedClips := s.orderedClips.mapIdx fun i c =>
      if (i : Int) = index then mergeClip c p else c }

/-- The ReactSortable setList callback: setOrderedClips replaces the
list with the one produced by the drag gesture. -/
def reorder (s : EditorState) (newList : List Clip) : EditorState :=
  { s with orderedClips := newList }

/-- handleBgUpload: uploads the file; on success stores the returned
locator as backgroundMusic; on a caught error shows a message and
changes nothing. -/
def handleBgUpload (s : EditorState) (o : UploadOutcome) : UploadStep :=
  match o with
  | .success fileUrl =>
      { state := { s with backgroundMusic := some fileUrl },
        messages := ["Background track uploaded!"] }
  | .failure =>
      { state := s, messages := ["Failed to upload background track"] }

/-- A sequence of customUpload calls, each with its file name and the
outcome its network call produced. -/
def runUploads (s : EditorState) (ups : List (String × UploadOutcome)) :
    EditorState :=
  ups.foldl (fun st u => (customUpload st u.1 u.2).state) s

end MusicCustom

namespace MusicCustom

/-- C6: for every upload failure, customUpload surfaces the transient
error notification "Upload failed" and performs no state mutation:
the full-uploads record, the ordered collection, the background
selection and the remix result are exactly as before the call. -/
theorem customUpload_failure_frame (s : EditorState) (n : String) :
    (customUpload s n .failure).state = s ∧
    (customUpload s n .failure).messages = ["Upload failed"] :=
  ⟨rfl, rfl⟩

/-- C5: every successful upload appends a clip with trimStart 0,
trimEnd 0 and speed 1.0 to the end of both uploadedFiles and
orderedClips, and after any sequence of successful uploads the ordered
collection is the previous collection followed by exactly one clip per
upload, in call order, duplicates included. -/
theorem customUpload_success_appends :
    (∀ (s : EditorState) (n u : String),
      (customUpload s n (.success u)).state =
        { s with
          uploadedFiles := s.uploadedFiles ++ [mkClip n u],
          orderedClips := s.orderedClips ++ [mkClip n u] } ∧
      mkClip n u =
        { name := n, url := u, trimStart := 0, trimEnd := 0, speed := 1 }) ∧
    ∀ (s : EditorState) (ups : List (String × String)),
      (runUploads s
          (ups.map fun q => (q.1, UploadOutcome.success q.2))).orderedClips
        = s.orderedClips ++ ups.map fun q => mkClip q.1 q.2 := by
  refine ⟨fun s n u => ⟨rfl, rfl⟩, fun s ups => ?_⟩
  induction ups generalizing s with
  | nil => simp [runUploads]
  | cons q qs ih =>
      have hstep :
          runUploads s
              ((q :: qs).map fun r => (r.1, UploadOutcome.success r.2))
            = runUploads (customUpload s q.1 (.success q.2)).state
                (qs.map fun r => (r.1, UploadOutcome.success r.2)) := rfl
      rw [hstep, ih]
      simp [customUpload]

/-- C9: every successful background upload stores the locator returned
by the upload endpoint as the background selection, replacing whatever
was selected before, and appends nothing to the ordered collection or
the full-uploads record. -/
theorem handleBgUpload_success_sets_background (s : EditorState) (u : String) :
    (handleBgUpload s (.success u)).state.backgroundMusic = some u ∧
    (handleBgUpload s (.success u)).state.orderedClips = s.orderedClips ∧
    (handleBgUpload s (.success u)).state.uploadedFiles = s.uploadedFiles ∧
    "Background track uploaded!" ∈ (handleBgUpload s (.success u)).messages := by
  refine ⟨rfl, rfl, rfl, ?_⟩
  simp [handleBgUpload]

/-- C4: with an empty ordered collection, handleRemix issues no network
request, surfaces the validation error message, and returns the state
unchanged in every field. -/
theorem handleRemix_empty_aborts (s : EditorState) (o : RemixOutcome)
    (h : s.orderedClips = []) :
    (handleRemix s o).request = none ∧
    (handleRemix s o).state = s ∧
    (handleRemix s o).messages = ["Please add at least one audio clip."] := by
  simp [handleRemix, h]

/-- A state with no clips but a stored remix result and a background
selection, to exercise the empty-collection guard. -/
def emptyClipsState : EditorState :=
  { uploadedFiles := [], orderedClips := [], remixUrl := some "blob:old",
    remixing := false, recording := false,
    backgroundMusic := some "/uploads/soft_guitar.mp3" }

/-- Witness for C4 at a concrete state. -/
theorem handleRemix_empty_aborts_witness :
    emptyClipsState.orderedClips = [] ∧
    ((handleRemix emptyClipsState .failure).request = none ∧
     (handleRemix emptyClipsState .failure).state = emptyClipsState ∧
     (handleRemix emptyClipsState .failure).messages
       = ["Please add at least one audio clip."]) :=
  ⟨rfl, handleRemix_empty_aborts emptyClipsState .failure rfl⟩

end MusicCustom

namespace MusicCustom

/-- C1: with a non-empty collection (and background locators, when set,
being actual non-empty locator strings), handleRemix sends a request
whose clips array is the ordered collection mapped, in order, to
url / trimStart / effective trimEnd / speed, where the effective
trimEnd is the trimEnd itself when positive and the sentinel 9999
otherwise, every sent trimEnd is positive (never 0), and the
backgroundMusic locator is included exactly when a selection is set. -/
theorem handleRemix_payload_spec (s : EditorState) (o : RemixOutcome)
    (hne : s.orderedClips ≠ [])
    (hbg : ∀ u, s.backgroundMusic = some u → u ≠ "") :
    ∃ p, (handleRemix s o).request = some p ∧
      p.clips = s.orderedClips.map (fun c =>
        { url := c.url, trimStart := c.trimStart,
          trimEnd := if c.trimEnd > 0 then c.trimEnd else 9999,
          speed := c.speed }) ∧
      (∀ rc ∈ p.clips, 0 < rc.trimEnd) ∧
      p.backgroundMusic = s.backgroundMusic := by
  have hlen : s.orderedClips.length ≠ 0 := by
    simpa [List.length_eq_zero] using hne
  refine ⟨remixPayload s, ?_, rfl, ?_, ?_⟩
  · cases o <;> simp [handleRemix, hlen]
  · intro rc hrc
    rw [remixPayload, List.mem_map] at hrc
    obtain ⟨c, _, rfl⟩ := hrc
    have hpos : 0 < safeTrimEnd c := by
      rw [safeTrimEnd]
      rcases lt_or_le 0 c.trimEnd with hc | hc
      · rw [if_pos hc]; exact hc
      · rw [if_neg (not_lt.mpr hc)]; norm_num
    simpa [clipPayload] using hpos
  · cases hb : s.backgroundMusic with
    | none => simp [remixPayload, truthy, hb]
    | some u =>
        have hu : u ≠ "" := hbg u hb
        simp [remixPayload, truthy, hb, hu]

/-- A two-clip state exercising both sides of the sentinel
substitution: one clip trimmed to 12.5 seconds, one with the unset
trimEnd 0, plus a background preset selected. -/
def payloadWitnessState : EditorState :=
  { uploadedFiles := [],
    orderedClips :=
      [{ name := "a.mp3", url := "/a", trimStart := 0, trimEnd := 25/2,
         speed := 1 },
       { name := "b.mp3", url := "/b", trimStart := 2, trimEnd := 0,
         speed := 3/2 }],
    remixUrl := none, remixing := true, recording := false,
    backgroundMusic := some "/uploads/romantic_piano.mp3" }

/-- Witness for C1 at a concrete state; the clip with trimEnd 12.5 is
sent unchanged and the clip with trimEnd 0 gets the sentinel. -/
theorem handleRemix_payload_spec_witness :
    payloadWitnessState.orderedClips ≠ [] ∧
    ∃ p,
      (handleRemix payloadWitnessState (.success "blob:x")).request = some p ∧
      p.clips = payloadWitnessState.orderedClips.map (fun c =>
        { url := c.url, trimStart := c.trimStart,
          trimEnd := if c.trimEnd > 0 then c.trimEnd else 9999,
          speed := c.speed }) ∧
      (∀ rc ∈ p.clips, 0 < rc.trimEnd) ∧
      p.backgroundMusic = payloadWitnessState.backgroundMusic :=
  ⟨by decide,
   handleRemix_payload_spec payloadWitnessState (.success "blob:x")
     (by decide) (by intro u h; cases h; decide)⟩

/-- A one-clip state with a stored previous remix result and a remix in
flight, as left by a successful earlier submission followed by a new
submission. -/
def prevResultState : EditorState :=
  { uploadedFiles := [mkClip "a.mp3" "/a"],
    orderedClips := [mkClip "a.mp3" "/a"],
    remixUrl := some "blob:previous", remixing := true, recording := false,
    backgroundMusic := none }

/-- C2 counterexample: at a concrete state holding the previous result
blob:previous, a failing remix leaves remixUrl at none, not at the
prior value: handleRemix clears the result at submission start, so the
prior remixResult is not left unchanged. -/
theorem handleRemix_failure_clears_prev_result :
    prevResultState.remixUrl = some "blob:previous" ∧
    (handleRemix prevResultState .failure).state.remixUrl = none ∧
    (handleRemix prevResultState .failure).state.remixUrl
      ≠ prevResultState.remixUrl := by
  refine ⟨rfl, rfl, ?_⟩
  decide

/-- C2 amended: when the remix request fails, handleRemix surfaces the
error notification, preserves the already-uploaded clips and every
other state field, and sets remixing back to false, but the prior
remixResult is not preserved: it was cleared to none when the
submission started and stays none. -/
theorem handleRemix_failure_state (s : EditorState)
    (hne : s.orderedClips ≠ []) :
    (handleRemix s .failure).state.remixUrl = none ∧
    (handleRemix s .failure).state.orderedClips = s.orderedClips ∧
    (handleRemix s .failure).state.uploadedFiles = s.uploadedFiles ∧
    (handleRemix s .failure).state.backgroundMusic = s.backgroundMusic ∧
    (handleRemix s .failure).state.recording = s.recording ∧
    (handleRemix s .failure).state.remixing = false ∧
    (handleRemix s .failure).messages = ["Failed to create remix."] := by
  have hlen : s.orderedClips.length ≠ 0 := by
    simpa [List.length_eq_zero] using hne
  simp [handleRemix, hlen]

/-- Witness for the amended C2 at a concrete state. -/
theorem handleRemix_failure_state_witness :
    prevResultState.orderedClips ≠ [] ∧
    ((handleRemix prevResultState .failure).state.remixUrl = none ∧
     (handleRemix prevResultState .failure).state.orderedClips
       = prevResultState.orderedClips ∧
     (handleRemix prevResultState .failure).state.uploadedFiles
       = prevResultState.uploadedFiles ∧
     (handleRemix prevResultState .failure).state.backgroundMusic
       = prevResultState.backgroundMusic ∧
     (handleRemix prevResultState .failure).state.recording
       = prevResultState.recording ∧
     (handleRemix prevResultState .failure).state.remixing = false ∧
     (handleRemix prevResultState .failure).messages
       = ["Failed to create remix."]) :=
  ⟨by decide, handleRemix_failure_state prevResultState (by decide)⟩

/-- A state with a remix already in flight (remixing true) and a
non-empty collection. -/
def inFlightState : EditorState :=
  { uploadedFiles := [mkClip "b.mp3" "/b"],
    orderedClips := [mkClip "b.mp3" "/b"],
    remixUrl := none, remixing := true, recording := false,
    backgroundMusic := none }

/-- C3 counterexample: at a concrete state with remixing already true,
invoking handleRemix again does issue another network request. -/
theorem handleRemix_reentrant_issues_request :
    inFlightState.remixing = true ∧
    ((handleRemix inFlightState .failure).request).isSome = true := by
  exact ⟨rfl, rfl⟩

/-- C3 amended: handleRemix contains no re-entrancy guard of its own:
invoked in any state with remixing already true and a non-empty
collection, it issues another network request; double submission is
prevented only outside this function, by the submit button being
disabled through its loading state while remixing is true. -/
theorem handleRemix_no_reentrancy_guard (s : EditorState) (o : RemixOutcome)
    (_hrem : s.remixing = true) (hne : s.orderedClips ≠ []) :
    ((handleRemix s o).request).isSome = true := by
  have hlen : s.orderedClips.length ≠ 0 := by
    simpa [List.length_eq_zero] using hne
  cases o <;> simp [handleRemix, hlen]

/-- Witness for the amended C3 at a concrete state. -/
theorem handleRemix_no_reentrancy_guard_witness :
    inFlightState.remixing = true ∧ inFlightState.orderedClips ≠ [] ∧
    ((handleRemix inFlightState (.success "blob:y")).request).isSome = true :=
  ⟨rfl, by decide,
   handleRemix_no_reentrancy_guard inFlightState (.success "blob:y")
     rfl (by decide)⟩

end MusicCustom

namespace MusicCustom

/-- C7: for every in-range index and every partial field set, updateClip
rewrites exactly clip i to the spread merge of the old clip with the
patch, leaves every other position, the length (hence the order) and
the rest of the state unchanged, and the merge overwrites exactly the
named fields, keeping name and url. -/
theorem updateClip_in_range (s : EditorState) (i : Nat) (p : ClipPatch)
    (_h : i < s.orderedClips.length) :
    (updateClip s (i : Int) p).orderedClips.length
      = s.orderedClips.length ∧
    (updateClip s (i : Int) p).orderedClips[i]?
      = (s.orderedClips[i]?).map (fun c => mergeClip c p) ∧
    (∀ j : Nat, j ≠ i →
      (updateClip s (i : Int) p).orderedClips[j]? = s.orderedClips[j]?) ∧
    (updateClip s (i : Int) p).uploadedFiles = s.uploadedFiles ∧
    ∀ c : Clip,
      (mergeClip c p).name = c.name ∧ (mergeClip c p).url = c.url ∧
      (mergeClip c p).trimStart = p.trimStart.getD c.trimStart ∧
      (mergeClip c p).trimEnd = p.trimEnd.getD c.trimEnd ∧
      (mergeClip c p).speed = p.speed.getD c.speed := by
  refine ⟨?_, ?_, ?_, rfl, fun c => ⟨rfl, rfl, rfl, rfl, rfl⟩⟩
  · simp [updateClip]
  · simp [updateClip]
  · intro j hj
    simp [updateClip, hj]

/-- Two distinct clips used by the concrete editing states below. -/
def clipA : Clip :=
  { name := "a.mp3", url := "/a", trimStart := 0, trimEnd := 4, speed := 1 }

/-- Second concrete clip. -/
def clipB : Clip :=
  { name := "b.mp3", url := "/b", trimStart := 1, trimEnd := 5, speed := 1 }

/-- A concrete two-clip editing state. -/
def twoClipState : EditorState :=
  { uploadedFiles := [clipA, clipB],
    orderedClips := [clipA, clipB],
    remixUrl := none, remixing := false, recording := false,
    backgroundMusic := none }

/-- The slider gesture: a patch carrying only a new speed. -/
def speedPatch : ClipPatch :=
  { trimStart := none, trimEnd := none, speed := some (3/2) }

/-- Witness for C7 at index 0 of the concrete two-clip state. -/
theorem updateClip_in_range_witness :
    0 < twoClipState.orderedClips.length ∧
    ((updateClip twoClipState ((0 : Nat) : Int) speedPatch).orderedClips.length
       = twoClipState.orderedClips.length ∧
     (updateClip twoClipState ((0 : Nat) : Int) speedPatch).orderedClips[(0 : Nat)]?
       = (twoClipState.orderedClips[(0 : Nat)]?).map
           (fun c => mergeClip c speedPatch) ∧
     (∀ j : Nat, j ≠ 0 →
       (updateClip twoClipState ((0 : Nat) : Int) speedPatch).orderedClips[j]?
         = twoClipState.orderedClips[j]?) ∧
     (updateClip twoClipState ((0 : Nat) : Int) speedPatch).uploadedFiles
       = twoClipState.uploadedFiles ∧
     ∀ c : Clip,
       (mergeClip c speedPatch).name = c.name ∧
       (mergeClip c speedPatch).url = c.url ∧
       (mergeClip c speedPatch).trimStart
         = speedPatch.trimStart.getD c.trimStart ∧
       (mergeClip c speedPatch).trimEnd = speedPatch.trimEnd.getD c.trimEnd ∧
       (mergeClip c speedPatch).speed = speedPatch.speed.getD c.speed) :=
  ⟨by decide, updateClip_in_range twoClipState 0 speedPatch (by decide)⟩

/-- C8: for every replacement list that is a permutation of the current
ordered collection, reorder installs exactly that list, and the
multiset of clip identities (url values) before and after is
unchanged. -/
theorem reorder_perm_preserves_urls (s : EditorState) (l : List Clip)
    (h : l.Perm s.orderedClips) :
    (reorder s l).orderedClips = l ∧
    ((reorder s l).orderedClips.map Clip.url : Multiset String)
      = (s.orderedClips.map Clip.url : Multiset String) :=
  ⟨rfl, Multiset.coe_eq_coe.mpr (h.map Clip.url)⟩

/-- Witness for C8: dragging clip B above clip A in the concrete
two-clip state. -/
theorem reorder_perm_preserves_urls_witness :
    [clipB, clipA].Perm twoClipState.orderedClips ∧
    ((reorder twoClipState [clipB, clipA]).orderedClips = [clipB, clipA] ∧
     ((reorder twoClipState [clipB, clipA]).orderedClips.map Clip.url
        : Multiset String)
       = (twoClipState.orderedClips.map Clip.url : Multiset String)) :=
  ⟨by decide,
   reorder_perm_preserves_urls twoClipState [clipB, clipA] (by decide)⟩

/-- C10: updateClip at any out-of-range index, negative ones included,
is a total no-op: the state, the ordered collection included, is
returned exactly unchanged. -/
theorem updateClip_out_of_range (s : EditorState) (i : Int) (p : ClipPatch)
    (h : i < 0 ∨ (s.orderedClips.length : Int) ≤ i) :
    updateClip s i p = s := by
  have hmap : (s.orderedClips.mapIdx fun j c =>
      if (j : Int) = i then mergeClip c p else c) = s.orderedClips := by
    rw [List.mapIdx_eq_iff]
    intro j
    cases hj : s.orderedClips[j]? with
    | none => rfl
    | some c =>
        have hjlen : j < s.orderedClips.length :=
          (List.getElem?_eq_some_iff.mp hj).1
        have hji : (j : Int) ≠ i := by omega
        simp [hji]
  simp only [updateClip, hmap]

/-- Witness for C10 at the negative index -1 of the concrete two-clip
state. -/
theorem updateClip_out_of_range_witness :
    ((-1 : Int) < 0 ∨ ((twoClipState.orderedClips.length : Int) ≤ -1)) ∧
    updateClip twoClipState (-1) speedPatch = twoClipState :=
  ⟨Or.inl (by decide),
   updateClip_out_of_range twoClipState (-1) speedPatch (Or.inl (by decide))⟩

end MusicCustom
